import Mathlib

/-!
Verification of the Metriful MS430 MQTT bridge sketch.

The definitions below are a shallow embedding of the Arduino sketch:
the acquisition loop and failure recovery (main `.ino` file), the MQTT
publish functions (`publish_environmental_data.ino`) and the Home
Assistant discovery publisher (`z_mqtt_discovery.ino`).  Machine
integers are modelled as `Nat`/`Int`.  The sketch's `float` values are
modelled exactly, by unnormalized rationals (`FloatVal`) with plain
integer arithmetic; `FloatVal.toRat` maps them to `ℚ` for value-level
statements.
-/

/-- Base MQTT topic.  Modelled from the spec: `MQTT_BASE_TOPIC` is defined in
`arduino_secrets.h` (not part of the source tree); the README documents the
default as `"home/" MQTT_LOCATION` with `MQTT_LOCATION` `"office"`. -/
def MQTT_BASE_TOPIC : String := "home/office"

/-- `#define USE_METRIC_UNITS false` in the main sketch. -/
def USE_METRIC_UNITS : Bool := false

/-- `const uint8_t MAX_SENSOR_FAILURES = 3` in the main sketch. -/
def MAX_SENSOR_FAILURES : Nat := 3

/-- `#define AVAILABILITY_TOPIC MQTT_BASE_TOPIC "/status"`. -/
def AVAILABILITY_TOPIC : String := MQTT_BASE_TOPIC ++ "/status"

/-- Exact model of a C `float` value as an unnormalized rational
`num / den`: every arithmetic step of the sketch on these values is exact,
so this models the ideal real-number semantics of the sketch's float
expressions.  The representation is kept unnormalized (no gcd) so that the
kernel can evaluate it. -/
structure FloatVal where
  num : Int
  den : Nat
deriving DecidableEq

instance : NatCast FloatVal := ⟨fun n => ⟨n, 1⟩⟩

instance (n : Nat) : OfNat FloatVal n := ⟨⟨n, 1⟩⟩

/-- Exact addition of float values. -/
def FloatVal.add (a b : FloatVal) : FloatVal :=
  ⟨a.num * b.den + b.num * a.den, a.den * b.den⟩

instance : Add FloatVal := ⟨FloatVal.add⟩

/-- Exact negation of a float value. -/
def FloatVal.neg (a : FloatVal) : FloatVal := ⟨-a.num, a.den⟩

instance : Neg FloatVal := ⟨FloatVal.neg⟩

/-- Exact subtraction of float values. -/
def FloatVal.sub (a b : FloatVal) : FloatVal := a + -b

instance : Sub FloatVal := ⟨FloatVal.sub⟩

/-- Exact multiplication of float values. -/
def FloatVal.mul (a b : FloatVal) : FloatVal :=
  ⟨a.num * b.num, a.den * b.den⟩

instance : Mul FloatVal := ⟨FloatVal.mul⟩

/-- Exact division of float values (the sketch only divides by positive
constants). -/
def FloatVal.div (a b : FloatVal) : FloatVal :=
  if b.num < 0 then ⟨-(a.num * b.den), a.den * b.num.natAbs⟩
  else ⟨a.num * b.den, a.den * b.num.natAbs⟩

instance : Div FloatVal := ⟨FloatVal.div⟩

/-- The rational value denoted by a `FloatVal`. -/
def FloatVal.toRat (a : FloatVal) : ℚ := (a.num : ℚ) / (a.den : ℚ)

/-- Climate reading bundle.  Models `AirData_t` of the Metriful library:
pressure `P_Pa` (uint32), humidity integer/fractional parts `H_pc_int`,
`H_pc_fr_1dp` (uint8), gas resistance `G_ohm` (uint32).  The temperature
fields model the three outputs of the library function `getTemperature`
(integer part, 1-decimal fractional part, sign flag); the unit string
returned by `getTemperature` is a compile-time constant of the library and
is modelled in `SensorConfig`. -/
structure AirData where
  P_Pa : Nat
  H_pc_int : Nat
  H_pc_fr_1dp : Nat
  G_ohm : Nat
  T_intPart : Nat
  T_fracPart : Nat
  T_isPositive : Bool
deriving DecidableEq

/-- Air quality bundle (`AirQualityData_t`): the fields the sketch reads. -/
structure AirQualityData where
  AQI_int : Nat
  AQI_fr_1dp : Nat
  AQI_accuracy : Nat
deriving DecidableEq

/-- Light bundle (`LightData_t`): the fields the sketch reads. -/
structure LightData where
  illum_lux_int : Nat
  illum_lux_fr_2dp : Nat
  white : Nat
deriving DecidableEq

/-- Sound bundle (`SoundData_t`): the fields the sketch reads.  The six
frequency-band arrays (`SOUND_FREQ_BANDS = 6`) are modelled as functions on
`Fin 6`. -/
structure SoundData where
  SPL_dBA_int : Nat
  SPL_dBA_fr_1dp : Nat
  peak_amp_mPa_int : Nat
  peak_amp_mPa_fr_2dp : Nat
  SPL_bands_dB_int : Fin 6 → Nat
  SPL_bands_dB_fr_1dp : Fin 6 → Nat

/-- Particle bundle (`ParticleData_t`): the fields the sketch reads. -/
structure ParticleData where
  duty_cycle_pc_int : Nat
  duty_cycle_pc_fr_2dp : Nat
  concentration_int : Nat
  concentration_fr_2dp : Nat
deriving DecidableEq

/-- Compile-time configuration of the sketch: `USE_METRIC_UNITS`, whether
`PARTICLE_SENSOR != PARTICLE_SENSOR_OFF`, and the first character of the
unit string returned by the library's `getTemperature` (determined by the
library's `TEMPERATURE_UNIT` compile-time setting). -/
structure SensorConfig where
  useMetricUnits : Bool
  particleSensorOn : Bool
  deviceTempUnitChar : Char
deriving DecidableEq

/-- An MQTT message: topic, payload bytes, retained flag. -/
structure Msg where
  topic : String
  payload : String
  retained : Bool
deriving DecidableEq

/-- Decimal digits of the fraction `rem / den` (with `rem < den`), most
significant first, stopping at an exact zero remainder (so no trailing
zeros), with a fuel bound on the number of digits. -/
def fracDigits : Nat → Nat → Nat → String
  | 0, _, _ => ""
  | fuel + 1, rem, den =>
    if rem = 0 then ""
    else toString (rem * 10 / den) ++ fracDigits fuel (rem * 10 % den) den

/-- Render a float value as a plain decimal numeral: integers without a
decimal point, other values with the shortest exact decimal expansion.
Modelled from the spec: the JSON encoder (ArduinoJson, an external
collaborator) serialises whole-number floats without a decimal part and
trims trailing zeros. -/
def decimalString (q : FloatVal) : String :=
  let sgn := if q.num < 0 then "-" else ""
  let n : Nat := q.num.natAbs
  let ip : Nat := n / q.den
  let rem : Nat := n % q.den
  if rem = 0 then sgn ++ toString ip
  else sgn ++ toString ip ++ "." ++ fracDigits 9 rem q.den

/-- JSON envelope for a numeric value.  Modelled from the spec: the payload
is a minimal structured envelope containing exactly one field named
`value`. -/
def jsonNum (q : FloatVal) : String :=
  "\x7b\"value\":" ++ decimalString q ++ "\x7d"

/-- JSON envelope for an integer value (the `publishIntValue` path). -/
def jsonInt (n : Int) : String :=
  "\x7b\"value\":" ++ toString n ++ "\x7d"

/-- JSON envelope for a string value (the `publishStringValue` path). -/
def jsonStr (s : String) : String :=
  "\x7b\"value\":\"" ++ s ++ "\"\x7d"

/-- `publishValue`: serialise a float value into the envelope and publish
(not retained). -/
def publishValue (topic : String) (value : FloatVal) : Msg :=
  { topic := topic, payload := jsonNum value, retained := false }

/-- `publishIntValue`: serialise an `int32_t` value into the envelope and
publish (not retained). -/
def publishIntValue (topic : String) (value : Int) : Msg :=
  { topic := topic, payload := jsonInt value, retained := false }

/-- `publishStringValue`: serialise a string value into the envelope and
publish (not retained). -/
def publishStringValue (topic : String) (value : String) : Msg :=
  { topic := topic, payload := jsonStr value, retained := false }

/-- `buildTopic`: `snprintf("%s/%s/%s", MQTT_BASE_TOPIC, category, measurement)`. -/
def buildTopic (category measurement : String) : String :=
  MQTT_BASE_TOPIC ++ "/" ++ category ++ "/" ++ measurement

/-- Conversion of an unsigned value to `int32_t` (used where the sketch
passes a `uint32_t` field to `publishIntValue`). -/
def toInt32 (n : Nat) : Int :=
  let m : Nat := n % 2 ^ 32
  if m < 2 ^ 31 then (m : Int) else (m : Int) - 2 ^ 32

/-- The `value` local computed by `publishTemperature`: assemble
`intPart + fractionalPart/10`, negate on the sign flag, then convert
between Celsius and Fahrenheit according to `USE_METRIC_UNITS` and the
first character of the device-reported unit. -/
def temperatureValue (cfg : SensorConfig) (data : AirData) : FloatVal :=
  let value : FloatVal := (data.T_intPart : FloatVal) + (data.T_fracPart : FloatVal) / 10
  let value : FloatVal := if data.T_isPositive then value else -value
  if cfg.useMetricUnits then
    if cfg.deviceTempUnitChar = 'F' ∨ cfg.deviceTempUnitChar = 'f' then
      (value - 32) * 5 / 9
    else value
  else
    if cfg.deviceTempUnitChar = 'C' ∨ cfg.deviceTempUnitChar = 'c' then
      value * 9 / 5 + 32
    else value

/-- `publishTemperature`: publish the converted temperature value. -/
def publishTemperature (cfg : SensorConfig) (data : AirData) : Msg :=
  publishValue (buildTopic "climate" "temperature") (temperatureValue cfg data)

/-- `publishPressure`: always publishes `P_Pa` in Pascals. -/
def publishPressure (data : AirData) : Msg :=
  publishValue (buildTopic "climate" "pressure") (data.P_Pa : FloatVal)

/-- `publishHumidity`: `H_pc_int + H_pc_fr_1dp/10`. -/
def publishHumidity (data : AirData) : Msg :=
  publishValue (buildTopic "climate" "humidity")
    ((data.H_pc_int : FloatVal) + (data.H_pc_fr_1dp : FloatVal) / 10)

/-- `publishGasResistance`: publishes `G_ohm` through the `int32_t` path. -/
def publishGasResistance (data : AirData) : Msg :=
  publishIntValue (buildTopic "climate" "gas_resistance") (toInt32 data.G_ohm)

/-- `publishAQI`: `AQI_int + AQI_fr_1dp/10`. -/
def publishAQI (data : AirQualityData) : Msg :=
  publishValue (buildTopic "airquality" "aqi")
    ((data.AQI_int : FloatVal) + (data.AQI_fr_1dp : FloatVal) / 10)

/-- The ordered accuracy labels of `publishAirQualityAccuracy`. -/
def accuracyLabels : List String :=
  ["not_yet_valid", "low", "medium", "high"]

/-- `publishAirQualityAccuracy`: clamp codes above 3 to 0, then index the
label list. -/
def publishAirQualityAccuracy (data : AirQualityData) : Msg :=
  let accuracy := if data.AQI_accuracy > 3 then 0 else data.AQI_accuracy
  publishStringValue (buildTopic "airquality" "accuracy")
    (accuracyLabels.getD accuracy "")

/-- `publishIlluminance`: `illum_lux_int + illum_lux_fr_2dp/100`. -/
def publishIlluminance (data : LightData) : Msg :=
  publishValue (buildTopic "light" "illuminance")
    ((data.illum_lux_int : FloatVal) + (data.illum_lux_fr_2dp : FloatVal) / 100)

/-- `publishWhiteLevel`: publishes `white` through the `int32_t` path. -/
def publishWhiteLevel (data : LightData) : Msg :=
  publishIntValue (buildTopic "light" "white_level") (data.white : Int)

/-- `publishSoundLevel`: `SPL_dBA_int + SPL_dBA_fr_1dp/10`. -/
def publishSoundLevel (data : SoundData) : Msg :=
  publishValue (buildTopic "sound" "spl")
    ((data.SPL_dBA_int : FloatVal) + (data.SPL_dBA_fr_1dp : FloatVal) / 10)

/-- `publishPeakAmplitude`: `peak_amp_mPa_int + peak_amp_mPa_fr_2dp/100`. -/
def publishPeakAmplitude (data : SoundData) : Msg :=
  publishValue (buildTopic "sound" "peak_amplitude")
    ((data.peak_amp_mPa_int : FloatVal) + (data.peak_amp_mPa_fr_2dp : FloatVal) / 100)

/-- The six per-band topic components of `publishSoundBands`. -/
def bandTopics : List String :=
  ["band_125hz", "band_250hz", "band_500hz", "band_1000hz", "band_2000hz",
   "band_4000hz"]

/-- `publishSoundBands`: one message per frequency band, in index order. -/
def publishSoundBands (data : SoundData) : List Msg :=
  (List.finRange 6).map fun i =>
    publishValue (buildTopic "sound" (bandTopics.getD i ""))
      ((data.SPL_bands_dB_int i : FloatVal) + (data.SPL_bands_dB_fr_1dp i : FloatVal) / 10)

/-- `publishParticleDutyCycle`: `duty_cycle_pc_int + duty_cycle_pc_fr_2dp/100`. -/
def publishParticleDutyCycle (data : ParticleData) : Msg :=
  publishValue (buildTopic "particles" "duty_cycle")
    ((data.duty_cycle_pc_int : FloatVal) + (data.duty_cycle_pc_fr_2dp : FloatVal) / 100)

/-- `publishParticleConcentration`: `concentration_int + concentration_fr_2dp/100`. -/
def publishParticleConcentration (data : ParticleData) : Msg :=
  publishValue (buildTopic "particles" "concentration")
    ((data.concentration_int : FloatVal) + (data.concentration_fr_2dp : FloatVal) / 100)

/-- `publishAllSensorData`: the messages published for one valid cycle, in
source order; the two particle messages are guarded by
`PARTICLE_SENSOR != PARTICLE_SENSOR_OFF`. -/
def publishAllSensorData (cfg : SensorConfig) (airData : AirData)
    (airQualityData : AirQualityData) (lightData : LightData)
    (soundData : SoundData) (particleData : ParticleData) : List Msg :=
  [publishTemperature cfg airData,
   publishPressure airData,
   publishHumidity airData,
   publishGasResistance airData,
   publishAQI airQualityData,
   publishAirQualityAccuracy airQualityData,
   publishIlluminance lightData,
   publishWhiteLevel lightData,
   publishSoundLevel soundData,
   publishPeakAmplitude soundData] ++
  publishSoundBands soundData ++
  (if cfg.particleSensorOn then
    [publishParticleDutyCycle particleData,
     publishParticleConcentration particleData]
   else [])

example :
    (publishHumidity ⟨101325, 45, 3, 50000, 0, 0, true⟩).payload =
      "\x7b\"value\":45.3\x7d" := by decide

example :
    (publishPressure ⟨101325, 45, 3, 50000, 0, 0, true⟩).payload =
      "\x7b\"value\":101325\x7d" := by decide

/-- `#define DEVICE_ID "metriful"` in the discovery file. -/
def DEVICE_ID : String := "metriful"

/-- `#define DISCOVERY_PREFIX "homeassistant"` in the discovery file. -/
def DISCOVERY_PREFIX : String := "homeassistant"

/-- `buildDiscoveryTopic`: `homeassistant/sensor/metriful/<sensor_id>/config`. -/
def buildDiscoveryTopic (sensorId : String) : String :=
  DISCOVERY_PREFIX ++ "/sensor/" ++ DEVICE_ID ++ "/" ++ sensorId ++ "/config"

/-- The discovery document assembled by the discovery publisher, one record
field per JSON field the source sets (`none` models an omitted field). -/
structure DiscoveryDoc where
  name : String
  unique_id : String
  state_topic : String
  value_template : String
  unit_of_measurement : Option String
  device_class : Option String
  state_class : Option String
  icon : String
  options : Option (List String)
  availability_topic : String
  payload_available : String
  payload_not_available : String
  device_identifiers : List String
  device_name : String
  device_manufacturer : String
  device_model : String
deriving DecidableEq

/-- `publishMeasurementDiscovery`: one retained discovery message for a
measurement sensor; the unit field is set only when the unit argument is
non-`NULL` and non-empty, the device-class field only when non-`NULL`. -/
def publishMeasurementDiscovery (nm sensorId category measurement : String)
    (deviceClass : Option String) (unit : Option String) (icon : String) :
    String × DiscoveryDoc :=
  (buildDiscoveryTopic sensorId,
   { name := nm
     unique_id := DEVICE_ID ++ "_" ++ sensorId
     state_topic := MQTT_BASE_TOPIC ++ "/" ++ category ++ "/" ++ measurement
     value_template := "\x7b\x7b value_json.value \x7d\x7d"
     unit_of_measurement :=
       match unit with
       | some u => if 0 < u.length then some u else none
       | none => none
     device_class := deviceClass
     state_class := some "measurement"
     icon := icon
     options := none
     availability_topic := AVAILABILITY_TOPIC
     payload_available := "online"
     payload_not_available := "offline"
     device_identifiers := [DEVICE_ID]
     device_name := "metriful"
     device_manufacturer := "Metriful"
     device_model := "MS430" })

/-- `publishEnumDiscovery`: one retained discovery message for an
enum-valued sensor: device-class `"enum"`, an options list, no unit and no
state-class. -/
def publishEnumDiscovery (nm sensorId category measurement icon : String)
    (options : List String) : String × DiscoveryDoc :=
  (buildDiscoveryTopic sensorId,
   { name := nm
     unique_id := DEVICE_ID ++ "_" ++ sensorId
     state_topic := MQTT_BASE_TOPIC ++ "/" ++ category ++ "/" ++ measurement
     value_template := "\x7b\x7b value_json.value \x7d\x7d"
     unit_of_measurement := none
     device_class := some "enum"
     state_class := none
     icon := icon
     options := some options
     availability_topic := AVAILABILITY_TOPIC
     payload_available := "online"
     payload_not_available := "offline"
     device_identifiers := [DEVICE_ID]
     device_name := "metriful"
     device_manufacturer := "Metriful"
     device_model := "MS430" })

/-- `publishAllDiscoveryConfigs`: all discovery messages at process start,
in source order; the two particle descriptors are guarded by
`PARTICLE_SENSOR != PARTICLE_SENSOR_OFF`. -/
def publishAllDiscoveryConfigs (cfg : SensorConfig) :
    List (String × DiscoveryDoc) :=
  let tempUnit := if cfg.useMetricUnits then "°C" else "°F"
  [publishMeasurementDiscovery "Temperature" "temperature" "climate"
     "temperature" (some "temperature") (some tempUnit) "mdi:thermometer",
   publishMeasurementDiscovery "Pressure" "pressure" "climate" "pressure"
     (some "atmospheric_pressure") (some "Pa") "mdi:gauge",
   publishMeasurementDiscovery "Humidity" "humidity" "climate" "humidity"
     (some "humidity") (some "%") "mdi:water-percent",
   publishMeasurementDiscovery "Gas Resistance" "gas_resistance" "climate"
     "gas_resistance" none (some "Ω") "mdi:resistor",
   publishMeasurementDiscovery "Air Quality Index" "aqi" "airquality" "aqi"
     (some "aqi") none "mdi:air-filter",
   publishEnumDiscovery "Air Quality Accuracy" "accuracy" "airquality"
     "accuracy" "mdi:crosshairs-question"
     ["not_yet_valid", "low", "medium", "high"],
   publishMeasurementDiscovery "Illuminance" "illuminance" "light"
     "illuminance" (some "illuminance") (some "lx") "mdi:brightness-5",
   publishMeasurementDiscovery "White Level" "white_level" "light"
     "white_level" none none "mdi:circle-outline",
   publishMeasurementDiscovery "Sound Pressure Level" "spl" "sound" "spl"
     (some "sound_pressure") (some "dBA") "mdi:volume-high",
   publishMeasurementDiscovery "Peak Amplitude" "peak_amplitude" "sound"
     "peak_amplitude" none (some "mPa") "mdi:waveform",
   publishMeasurementDiscovery "Sound Band 125Hz" "band_125hz" "sound"
     "band_125hz" none (some "dB") "mdi:sine-wave",
   publishMeasurementDiscovery "Sound Band 250Hz" "band_250hz" "sound"
     "band_250hz" none (some "dB") "mdi:sine-wave",
   publishMeasurementDiscovery "Sound Band 500Hz" "band_500hz" "sound"
     "band_500hz" none (some "dB") "mdi:sine-wave",
   publishMeasurementDiscovery "Sound Band 1000Hz" "band_1000hz" "sound"
     "band_1000hz" none (some "dB") "mdi:sine-wave",
   publishMeasurementDiscovery "Sound Band 2000Hz" "band_2000hz" "sound"
     "band_2000hz" none (some "dB") "mdi:sine-wave",
   publishMeasurementDiscovery "Sound Band 4000Hz" "band_4000hz" "sound"
     "band_4000hz" none (some "dB") "mdi:sine-wave"] ++
  (if cfg.particleSensorOn then
    [publishMeasurementDiscovery "Particle Duty Cycle" "duty_cycle"
       "particles" "duty_cycle" none (some "%") "mdi:blur",
     publishMeasurementDiscovery "Particle Concentration" "concentration"
       "particles" "concentration" none (some "ppL") "mdi:blur-radial"]
   else [])

/-- `publishAvailability`: the retained availability message. -/
def publishAvailability (online : Bool) : Msg :=
  { topic := AVAILABILITY_TOPIC
    payload := if online then "online" else "offline"
    retained := true }

/-- `isDataInvalid`: all-zero pressure, humidity integer part and gas
resistance indicate a sensor communication failure. -/
def isDataInvalid (airData : AirData) : Bool :=
  airData.P_Pa == 0 && airData.H_pc_int == 0 && airData.G_ohm == 0

/-- The five measurement groups read by the loop. -/
inductive MeasurementGroup
  | climate
  | airQuality
  | light
  | sound
  | particle
deriving DecidableEq

/-- Fire-and-forget device commands issued over the sensor bus. -/
inductive DeviceCmd
  | reset
  | particleSelect
  | cyclePeriodSet
  | cycleMode
deriving DecidableEq

/-- Observable events of one pass of `loop()`, in program order. -/
inductive LoopEvent
  | readGroup (g : MeasurementGroup)
  | counterSet (n : Nat)
  | deviceWrite (c : DeviceCmd)
  | waitReady
  | fullRestart
  | publish (m : Msg)
deriving DecidableEq

/-- Events of `resetMetrifulSensor`: reset command, wait for readiness,
reapply particle-sensor selection and cycle period, re-enter cycle mode. -/
def softResetEvents : List LoopEvent :=
  [LoopEvent.deviceWrite DeviceCmd.reset,
   LoopEvent.waitReady,
   LoopEvent.deviceWrite DeviceCmd.particleSelect,
   LoopEvent.deviceWrite DeviceCmd.cyclePeriodSet,
   LoopEvent.deviceWrite DeviceCmd.cycleMode]

/-- The mutable globals of the sketch touched by one pass of `loop()`. -/
structure LoopState where
  sensorFailureCount : Nat
  airData : AirData
  airQualityData : AirQualityData
  lightData : LightData
  soundData : SoundData
  particleData : ParticleData

/-- The values the device would deliver for each group read in one cycle. -/
structure Readings where
  air : AirData
  airQuality : AirQualityData
  light : LightData
  sound : SoundData
  particle : ParticleData

/-- Whether the pass fell through to the next iteration or triggered the
full software restart (`NVIC_SystemReset`, which never returns). -/
inductive CycleResult
  | continued
  | restarted
deriving DecidableEq

/-- Result of one pass of `loop()` after the ready signal: the updated
globals, the observable events in program order, and whether the process
restarted. -/
structure StepResult where
  state : LoopState
  events : List LoopEvent
  outcome : CycleResult

/-- One pass of `loop()` from the observation of the ready signal: read the
climate group; if it is invalid, increment the failure counter and either
fully restart (counter at the threshold) or soft-reset the sensor and skip
the cycle; otherwise clear the counter, read the remaining groups and
publish everything. -/
def loopStep (cfg : SensorConfig) (st : LoopState) (inp : Readings) :
    StepResult :=
  let st1 : LoopState := { st with airData := inp.air }
  if isDataInvalid inp.air then
    let c : Nat := st1.sensorFailureCount + 1
    let st2 : LoopState := { st1 with sensorFailureCount := c }
    if MAX_SENSOR_FAILURES ≤ c then
      { state := st2
        events := [LoopEvent.readGroup MeasurementGroup.climate,
                   LoopEvent.counterSet c, LoopEvent.fullRestart]
        outcome := CycleResult.restarted }
    else
      { state := st2
        events := [LoopEvent.readGroup MeasurementGroup.climate,
                   LoopEvent.counterSet c] ++ softResetEvents
        outcome := CycleResult.continued }
  else
    let st2 : LoopState :=
      { st1 with
        sensorFailureCount := 0
        airQualityData := inp.airQuality
        lightData := inp.light
        soundData := inp.sound
        particleData :=
          if cfg.particleSensorOn then inp.particle else st1.particleData }
    let msgs := publishAllSensorData cfg st2.airData st2.airQualityData
      st2.lightData st2.soundData st2.particleData
    { state := st2
      events := [LoopEvent.readGroup MeasurementGroup.climate,
                 LoopEvent.counterSet 0,
                 LoopEvent.readGroup MeasurementGroup.airQuality,
                 LoopEvent.readGroup MeasurementGroup.light,
                 LoopEvent.readGroup MeasurementGroup.sound] ++
        (if cfg.particleSensorOn
         then [LoopEvent.readGroup MeasurementGroup.particle] else []) ++
        msgs.map LoopEvent.publish
      outcome := CycleResult.continued }

/-- Run the acquisition loop over a list of per-cycle readings, halting when
a pass triggers the full restart (execution does not continue past
`softwareReset` within the same process run). -/
def runLoop (cfg : SensorConfig) : LoopState → List Readings →
    LoopState × List LoopEvent
  | st, [] => (st, [])
  | st, r :: rs =>
    let res := loopStep cfg st r
    match res.outcome with
    | CycleResult.restarted => (res.state, res.events)
    | CycleResult.continued =>
      let rest := runLoop cfg res.state rs
      (rest.1, res.events ++ rest.2)

/-- The zero-initialised climate bundle (`AirData_t airData = { 0 }`). -/
def zeroAirData : AirData :=
  { P_Pa := 0, H_pc_int := 0, H_pc_fr_1dp := 0, G_ohm := 0, T_intPart := 0,
    T_fracPart := 0, T_isPositive := true }

/-- The zero-initialised air quality bundle. -/
def zeroAirQualityData : AirQualityData :=
  { AQI_int := 0, AQI_fr_1dp := 0, AQI_accuracy := 0 }

/-- The zero-initialised light bundle. -/
def zeroLightData : LightData :=
  { illum_lux_int := 0, illum_lux_fr_2dp := 0, white := 0 }

/-- The zero-initialised sound bundle. -/
def zeroSoundData : SoundData :=
  { SPL_dBA_int := 0, SPL_dBA_fr_1dp := 0, peak_amp_mPa_int := 0,
    peak_amp_mPa_fr_2dp := 0, SPL_bands_dB_int := fun _ => 0,
    SPL_bands_dB_fr_1dp := fun _ => 0 }

/-- The zero-initialised particle bundle. -/
def zeroParticleData : ParticleData :=
  { duty_cycle_pc_int := 0, duty_cycle_pc_fr_2dp := 0, concentration_int := 0,
    concentration_fr_2dp := 0 }

/-- The globals at process start: zeroed bundles, failure counter zero. -/
def initialLoopState : LoopState :=
  { sensorFailureCount := 0
    airData := zeroAirData
    airQualityData := zeroAirQualityData
    lightData := zeroLightData
    soundData := zeroSoundData
    particleData := zeroParticleData }

/-- A cycle of readings whose climate group is all zeros (a communication
fault). -/
def zeroReadings : Readings :=
  { air := zeroAirData
    airQuality := zeroAirQualityData
    light := zeroLightData
    sound := zeroSoundData
    particle := zeroParticleData }

/-- A representative valid climate bundle. -/
def sampleAirData : AirData :=
  { P_Pa := 101325, H_pc_int := 45, H_pc_fr_1dp := 3, G_ohm := 50000,
    T_intPart := 21, T_fracPart := 7, T_isPositive := true }

/-- A cycle of readings whose climate group is valid. -/
def sampleReadings : Readings :=
  { air := sampleAirData
    airQuality := { AQI_int := 25, AQI_fr_1dp := 1, AQI_accuracy := 2 }
    light := { illum_lux_int := 300, illum_lux_fr_2dp := 25, white := 1200 }
    sound := zeroSoundData
    particle := zeroParticleData }

/-- The sketch configuration as shipped: imperial display units, no
particle sensor, device reporting Celsius (the library default). -/
def defaultConfig : SensorConfig :=
  { useMetricUnits := USE_METRIC_UNITS
    particleSensorOn := false
    deviceTempUnitChar := 'C' }

/-- A configuration with a particle sensor attached. -/
def particleConfig : SensorConfig :=
  { useMetricUnits := USE_METRIC_UNITS
    particleSensorOn := true
    deviceTempUnitChar := 'C' }

/-- Event predicate: `e` is a publish event. -/
def isPublishEvent : LoopEvent → Bool
  | LoopEvent.publish _ => true
  | _ => false

/-- Event predicate: any group read in `e` is the climate group. -/
def readsOnlyClimate : LoopEvent → Bool
  | LoopEvent.readGroup g => g == MeasurementGroup.climate
  | _ => true

/-- Event predicate: any counter value set in `e` is at most the
escalation threshold. -/
def counterAtMostThreshold : LoopEvent → Bool
  | LoopEvent.counterSet n => decide (n ≤ MAX_SENSOR_FAILURES)
  | _ => true

/-- Computable prefix test on the characters of two strings (the model of
topic-path matching). -/
def strStartsWith (s pre : String) : Bool :=
  pre.data.isPrefixOf s.data

/-- Event predicate: `e` does not publish to a topic under the given
category path. -/
def noPublishUnder (pre : String) : LoopEvent → Bool
  | LoopEvent.publish m => !(strStartsWith m.topic pre)
  | _ => true

/-- C2: a climate reading is classified invalid exactly when the pressure
field, the humidity integer-part field and the gas-resistance field are all
zero; a reading with any of the three non-zero is valid, and no other field
plays a role. -/
theorem isDataInvalid_iff_all_zero (d : AirData) :
    isDataInvalid d = true ↔ (d.P_Pa = 0 ∧ d.H_pc_int = 0 ∧ d.G_ohm = 0) := by
  simp [isDataInvalid, Bool.and_eq_true, beq_iff_eq, and_assoc]

/-- C7: for every raw accuracy code, the published label is the label of
code 0 (`"not_yet_valid"`) when the code exceeds 3, and otherwise the
code-indexed element of the ordered label list; out-of-range codes still
produce a message rather than an error. -/
theorem accuracy_label_clamped (d : AirQualityData) :
    (publishAirQualityAccuracy d).payload =
      jsonStr (if 3 < d.AQI_accuracy then "not_yet_valid"
               else accuracyLabels.getD d.AQI_accuracy "") := by
  by_cases h : 3 < d.AQI_accuracy <;>
    simp [publishAirQualityAccuracy, publishStringValue, h, accuracyLabels]

/-- C5: a cycle whose climate read is invalid increments the failure
counter, performs the recovery action (soft sensor reset below the
threshold, full restart at the threshold), and publishes nothing. -/
theorem invalid_cycle_aborts_without_publishing (cfg : SensorConfig)
    (st : LoopState) (inp : Readings) (h : isDataInvalid inp.air = true) :
    (loopStep cfg st inp).state.sensorFailureCount =
      st.sensorFailureCount + 1 ∧
    (loopStep cfg st inp).events =
      [LoopEvent.readGroup MeasurementGroup.climate,
       LoopEvent.counterSet (st.sensorFailureCount + 1)] ++
      (if MAX_SENSOR_FAILURES ≤ st.sensorFailureCount + 1
       then [LoopEvent.fullRestart] else softResetEvents) ∧
    ((loopStep cfg st inp).events.all fun e => !(isPublishEvent e)) = true := by
  by_cases hc : MAX_SENSOR_FAILURES ≤ st.sensorFailureCount + 1 <;>
    simp [loopStep, h, hc, softResetEvents, isPublishEvent]

/-- Witness for C5 at a concrete invalid reading. -/
theorem invalid_cycle_aborts_without_publishing_witness :
    isDataInvalid zeroReadings.air = true ∧
    ((loopStep particleConfig initialLoopState zeroReadings).state.sensorFailureCount =
        initialLoopState.sensorFailureCount + 1 ∧
      (loopStep particleConfig initialLoopState zeroReadings).events =
        [LoopEvent.readGroup MeasurementGroup.climate,
         LoopEvent.counterSet (initialLoopState.sensorFailureCount + 1)] ++
        (if MAX_SENSOR_FAILURES ≤ initialLoopState.sensorFailureCount + 1
         then [LoopEvent.fullRestart] else softResetEvents) ∧
      ((loopStep particleConfig initialLoopState zeroReadings).events.all
          fun e => !(isPublishEvent e)) = true) :=
  ⟨by decide,
   invalid_cycle_aborts_without_publishing particleConfig initialLoopState
     zeroReadings (by decide)⟩

/-- C10: a cycle whose climate read is invalid leaves the air-quality,
light, sound and particle bundles unchanged, overwrites only the climate
bundle, and reads no group other than climate. -/
theorem invalid_cycle_frame (cfg : SensorConfig) (st : LoopState)
    (inp : Readings) (h : isDataInvalid inp.air = true) :
    (loopStep cfg st inp).state.airQualityData = st.airQualityData ∧
    (loopStep cfg st inp).state.lightData = st.lightData ∧
    (loopStep cfg st inp).state.soundData = st.soundData ∧
    (loopStep cfg st inp).state.particleData = st.particleData ∧
    (loopStep cfg st inp).state.airData = inp.air ∧
    ((loopStep cfg st inp).events.all readsOnlyClimate) = true := by
  by_cases hc : MAX_SENSOR_FAILURES ≤ st.sensorFailureCount + 1 <;>
    simp [loopStep, h, hc, softResetEvents, readsOnlyClimate]

/-- Witness for C10 at a concrete invalid reading. -/
theorem invalid_cycle_frame_witness :
    isDataInvalid zeroReadings.air = true ∧
    ((loopStep particleConfig initialLoopState zeroReadings).state.airQualityData =
        initialLoopState.airQualityData ∧
      (loopStep particleConfig initialLoopState zeroReadings).state.lightData =
        initialLoopState.lightData ∧
      (loopStep particleConfig initialLoopState zeroReadings).state.soundData =
        initialLoopState.soundData ∧
      (loopStep particleConfig initialLoopState zeroReadings).state.particleData =
        initialLoopState.particleData ∧
      (loopStep particleConfig initialLoopState zeroReadings).state.airData =
        zeroReadings.air ∧
      ((loopStep particleConfig initialLoopState zeroReadings).events.all
          readsOnlyClimate) = true) :=
  ⟨by decide,
   invalid_cycle_frame particleConfig initialLoopState zeroReadings (by decide)⟩

/-- C3: from any failure-counter value reachable without a restart (at most
2), a valid climate read sets the counter to exactly 0, and does so before
any publish event of the cycle. -/
theorem valid_read_resets_counter (cfg : SensorConfig) (st : LoopState)
    (inp : Readings) (hc : st.sensorFailureCount ≤ 2)
    (h : isDataInvalid inp.air = false) :
    (loopStep cfg st inp).state.sensorFailureCount = 0 ∧
    (loopStep cfg st inp).events.take 2 =
      [LoopEvent.readGroup MeasurementGroup.climate, LoopEvent.counterSet 0] ∧
    (((loopStep cfg st inp).events.take 2).all
        fun e => !(isPublishEvent e)) = true := by
  simp [loopStep, h, isPublishEvent]

/-- Witness for C3 at a concrete valid reading from counter value 1. -/
theorem valid_read_resets_counter_witness :
    ({ initialLoopState with sensorFailureCount := 1 } : LoopState).sensorFailureCount ≤ 2 ∧
    isDataInvalid sampleReadings.air = false ∧
    ((loopStep defaultConfig { initialLoopState with sensorFailureCount := 1 }
        sampleReadings).state.sensorFailureCount = 0 ∧
      (loopStep defaultConfig { initialLoopState with sensorFailureCount := 1 }
          sampleReadings).events.take 2 =
        [LoopEvent.readGroup MeasurementGroup.climate, LoopEvent.counterSet 0] ∧
      (((loopStep defaultConfig { initialLoopState with sensorFailureCount := 1 }
            sampleReadings).events.take 2).all
          fun e => !(isPublishEvent e)) = true) :=
  ⟨by decide, by decide,
   valid_read_resets_counter defaultConfig
     { initialLoopState with sensorFailureCount := 1 } sampleReadings
     (by decide) (by decide)⟩

/-- The exact event trace of a run that starts healthy and sees three
consecutive invalid climate reads: two soft sensor resets, then the full
restart, with counter values 1, 2, 3. -/
def escalationEvents : List LoopEvent :=
  [LoopEvent.readGroup MeasurementGroup.climate, LoopEvent.counterSet 1] ++
  softResetEvents ++
  [LoopEvent.readGroup MeasurementGroup.climate, LoopEvent.counterSet 2] ++
  softResetEvents ++
  [LoopEvent.readGroup MeasurementGroup.climate, LoopEvent.counterSet 3,
   LoopEvent.fullRestart]

/-- C1: starting from a healthy state, three consecutive invalid climate
reads produce exactly two soft device resets (on the first two) and then
the full process restart (on the third, with no further soft reset and no
further cycles), and the failure counter never exceeds 3 before the
restart fires. -/
theorem three_invalid_reads_escalate (cfg : SensorConfig) (st : LoopState)
    (rs : List Readings) (r1 r2 r3 : Readings)
    (h0 : st.sensorFailureCount = 0)
    (h1 : isDataInvalid r1.air = true)
    (h2 : isDataInvalid r2.air = true)
    (h3 : isDataInvalid r3.air = true) :
    (runLoop cfg st (r1 :: r2 :: r3 :: rs)).2 = escalationEvents ∧
    ((runLoop cfg st (r1 :: r2 :: r3 :: rs)).2.all counterAtMostThreshold) =
      true := by
  have he : (runLoop cfg st (r1 :: r2 :: r3 :: rs)).2 = escalationEvents := by
    simp [runLoop, loopStep, h0, h1, h2, h3, MAX_SENSOR_FAILURES,
      escalationEvents, softResetEvents]
  exact ⟨he, by rw [he]; decide⟩

/-- Witness for C1: three all-zero readings from the initial state. -/
theorem three_invalid_reads_escalate_witness :
    initialLoopState.sensorFailureCount = 0 ∧
    isDataInvalid zeroReadings.air = true ∧
    ((runLoop defaultConfig initialLoopState
        [zeroReadings, zeroReadings, zeroReadings]).2 = escalationEvents ∧
      ((runLoop defaultConfig initialLoopState
          [zeroReadings, zeroReadings, zeroReadings]).2.all
          counterAtMostThreshold) = true) :=
  ⟨rfl, by decide,
   three_invalid_reads_escalate defaultConfig initialLoopState [] zeroReadings
     zeroReadings zeroReadings rfl (by decide) (by decide) (by decide)⟩

/-- C4 (as stated) is false: here is an iteration that observes the ready
signal and enters the reading phase (it reads the climate group) but never
reads the air-quality group, because the validation gate classified the
cycle right after the climate read. -/
theorem reading_order_claim_counterexample :
    isDataInvalid zeroReadings.air = true ∧
    LoopEvent.readGroup MeasurementGroup.climate ∈
      (loopStep particleConfig initialLoopState zeroReadings).events ∧
    LoopEvent.readGroup MeasurementGroup.airQuality ∉
      (loopStep particleConfig initialLoopState zeroReadings).events := by
  decide

/-- C4 (amended): upon the ready signal the cycle reads the climate group
first and the validation gate classifies the cycle on it alone; only when
the climate read is valid are the remaining groups read, in the fixed
order AirQuality, Light, Sound, Particle (Particle only if configured),
followed by the publishes. -/
theorem reading_order_amended (cfg : SensorConfig) (st : LoopState)
    (inp : Readings) :
    (loopStep cfg st inp).events =
      LoopEvent.readGroup MeasurementGroup.climate ::
        (if isDataInvalid inp.air then
          LoopEvent.counterSet (st.sensorFailureCount + 1) ::
            (if MAX_SENSOR_FAILURES ≤ st.sensorFailureCount + 1
             then [LoopEvent.fullRestart] else softResetEvents)
        else
          LoopEvent.counterSet 0 ::
            ([LoopEvent.readGroup MeasurementGroup.airQuality,
              LoopEvent.readGroup MeasurementGroup.light,
              LoopEvent.readGroup MeasurementGroup.sound] ++
             (if cfg.particleSensorOn
              then [LoopEvent.readGroup MeasurementGroup.particle] else []) ++
             (publishAllSensorData cfg inp.air inp.airQuality inp.light
                 inp.sound
                 (if cfg.particleSensorOn then inp.particle
                  else st.particleData)).map LoopEvent.publish)) := by
  by_cases h : isDataInvalid inp.air
  · by_cases hc : MAX_SENSOR_FAILURES ≤ st.sensorFailureCount + 1 <;>
      simp [loopStep, h, hc]
  · simp [loopStep, h]

theorem FloatVal.add_def (a b : FloatVal) :
    a + b = ⟨a.num * b.den + b.num * a.den, a.den * b.den⟩ := rfl

theorem FloatVal.neg_def (a : FloatVal) : -a = ⟨-a.num, a.den⟩ := rfl

theorem FloatVal.sub_def (a b : FloatVal) : a - b = a + -b := rfl

theorem FloatVal.mul_def (a b : FloatVal) :
    a * b = ⟨a.num * b.num, a.den * b.den⟩ := rfl

theorem FloatVal.div_def (a b : FloatVal) :
    a / b = if b.num < 0 then ⟨-(a.num * b.den), a.den * b.num.natAbs⟩
            else ⟨a.num * b.den, a.den * b.num.natAbs⟩ := rfl

theorem FloatVal.natCast_def (n : Nat) : (n : FloatVal) = ⟨n, 1⟩ := rfl

theorem FloatVal.ofNat_def (n : Nat) :
    (OfNat.ofNat n : FloatVal) = ⟨n, 1⟩ := rfl

/-- The exact rational semantics of `temperatureValue`, branch by branch of
the source. -/
theorem temperatureValue_toRat (cfg : SensorConfig) (d : AirData) :
    (temperatureValue cfg d).toRat =
      (let v : ℚ :=
        if d.T_isPositive then (d.T_intPart : ℚ) + (d.T_fracPart : ℚ) / 10
        else -((d.T_intPart : ℚ) + (d.T_fracPart : ℚ) / 10);
       if cfg.useMetricUnits then
         if cfg.deviceTempUnitChar = 'F' ∨ cfg.deviceTempUnitChar = 'f' then
           (v - 32) * 5 / 9
         else v
       else
         if cfg.deviceTempUnitChar = 'C' ∨ cfg.deviceTempUnitChar = 'c' then
           v * 9 / 5 + 32
         else v) := by
  by_cases hm : cfg.useMetricUnits <;>
    by_cases hF : cfg.deviceTempUnitChar = 'F' ∨ cfg.deviceTempUnitChar = 'f' <;>
      by_cases hC : cfg.deviceTempUnitChar = 'C' ∨ cfg.deviceTempUnitChar = 'c' <;>
        by_cases hp : d.T_isPositive <;>
          · simp only [temperatureValue, hm, hF, hC, hp, if_true, if_false,
              Bool.false_eq_true, ite_true, ite_false, iff_true, iff_false]
            simp only [FloatVal.add_def, FloatVal.neg_def, FloatVal.sub_def,
              FloatVal.mul_def, FloatVal.div_def, FloatVal.natCast_def,
              FloatVal.ofNat_def, FloatVal.toRat]
            push_cast
            field_simp
            try ring

/-- C6: the published temperature is the assembled fixed-point value
(integer part plus tenths, negated on the sign flag), converted
Celsius-to-Fahrenheit when the display unit is Fahrenheit and the device
reports Celsius, Fahrenheit-to-Celsius when the display unit is Celsius
and the device reports Fahrenheit, and passed through unchanged when the
device-reported unit matches the configured display unit. -/
theorem temperature_unit_conversion (cfg : SensorConfig) (d : AirData)
    (hu : cfg.deviceTempUnitChar = 'C' ∨ cfg.deviceTempUnitChar = 'F') :
    (publishTemperature cfg d).payload = jsonNum (temperatureValue cfg d) ∧
    (temperatureValue cfg d).toRat =
      (let v : ℚ :=
        if d.T_isPositive then (d.T_intPart : ℚ) + (d.T_fracPart : ℚ) / 10
        else -((d.T_intPart : ℚ) + (d.T_fracPart : ℚ) / 10);
       if cfg.useMetricUnits = false ∧ cfg.deviceTempUnitChar = 'C' then
         v * 9 / 5 + 32
       else if cfg.useMetricUnits = true ∧ cfg.deviceTempUnitChar = 'F' then
         (v - 32) * 5 / 9
       else v) := by
  refine ⟨rfl, ?_⟩
  rw [temperatureValue_toRat]
  rcases hu with h | h <;> cases hm : cfg.useMetricUnits <;> simp [h, hm]

/-- Witness for C6: imperial display configuration, device reporting
Celsius, reading 21.7 °C. -/
theorem temperature_unit_conversion_witness :
    (defaultConfig.deviceTempUnitChar = 'C' ∨
      defaultConfig.deviceTempUnitChar = 'F') ∧
    ((publishTemperature defaultConfig sampleAirData).payload =
        jsonNum (temperatureValue defaultConfig sampleAirData) ∧
      (temperatureValue defaultConfig sampleAirData).toRat =
        (let v : ℚ :=
          if sampleAirData.T_isPositive then
            (sampleAirData.T_intPart : ℚ) + (sampleAirData.T_fracPart : ℚ) / 10
          else
            -((sampleAirData.T_intPart : ℚ) + (sampleAirData.T_fracPart : ℚ) / 10);
         if defaultConfig.useMetricUnits = false ∧
             defaultConfig.deviceTempUnitChar = 'C' then
           v * 9 / 5 + 32
         else if defaultConfig.useMetricUnits = true ∧
             defaultConfig.deviceTempUnitChar = 'F' then
           (v - 32) * 5 / 9
         else v)) :=
  ⟨Or.inl rfl,
   temperature_unit_conversion defaultConfig sampleAirData (Or.inl rfl)⟩

/-- The climate reading of the spec's numerical scenario, with arbitrary
temperature fields. -/
def scenarioAirData (ti tf : Nat) (pos : Bool) : AirData :=
  { P_Pa := 101325, H_pc_int := 45, H_pc_fr_1dp := 3, G_ohm := 50000,
    T_intPart := ti, T_fracPart := tf, T_isPositive := pos }

/-- C9: for the reading P=101325 Pa, H=45.3 %, G=50000 Ω under the
imperial configuration, the pressure payload is exactly
`{"value":101325}`, the humidity payload exactly `{"value":45.3}`, and
the temperature topic carries the Fahrenheit-converted value. -/
theorem scenario_payloads (ti tf : Nat) (pos : Bool) :
    (publishPressure (scenarioAirData ti tf pos)).topic =
      "home/office/climate/pressure" ∧
    (publishPressure (scenarioAirData ti tf pos)).payload =
      "\x7b\"value\":101325\x7d" ∧
    (publishHumidity (scenarioAirData ti tf pos)).topic =
      "home/office/climate/humidity" ∧
    (publishHumidity (scenarioAirData ti tf pos)).payload =
      "\x7b\"value\":45.3\x7d" ∧
    (publishTemperature defaultConfig (scenarioAirData ti tf pos)).topic =
      "home/office/climate/temperature" ∧
    (publishTemperature defaultConfig (scenarioAirData ti tf pos)).payload =
      jsonNum (temperatureValue defaultConfig (scenarioAirData ti tf pos)) ∧
    (temperatureValue defaultConfig (scenarioAirData ti tf pos)).toRat =
      (if pos then (ti : ℚ) + (tf : ℚ) / 10
       else -((ti : ℚ) + (tf : ℚ) / 10)) * 9 / 5 + 32 := by
  refine ⟨rfl, ?_, rfl, ?_, rfl, rfl, ?_⟩
  · simp only [scenarioAirData, publishPressure, publishValue]
    decide
  · simp only [scenarioAirData, publishHumidity, publishValue]
    decide
  · rw [temperatureValue_toRat]
    simp [defaultConfig, USE_METRIC_UNITS, scenarioAirData]

/-- Message predicate: the topic does not start with the given path. -/
def topicAvoids (pre : String) (m : Msg) : Bool :=
  !(strStartsWith m.topic pre)

set_option maxRecDepth 2000 in
/-- With no particle sensor configured, no message of a valid cycle is
published under the particles category. -/
theorem publishAllSensorData_no_particle_topics (cfg : SensorConfig)
    (h : cfg.particleSensorOn = false) (a : AirData) (q : AirQualityData)
    (l : LightData) (s : SoundData) (p : ParticleData) :
    ((publishAllSensorData cfg a q l s p).all
        (topicAvoids (MQTT_BASE_TOPIC ++ "/particles/"))) = true := by
  have hb : List.finRange 6 = [0, 1, 2, 3, 4, 5] := by decide
  simp [publishAllSensorData, h, publishSoundBands, hb, publishTemperature,
    publishPressure, publishHumidity, publishGasResistance, publishAQI,
    publishAirQualityAccuracy, publishIlluminance, publishWhiteLevel,
    publishSoundLevel, publishPeakAmplitude, publishValue, publishIntValue,
    publishStringValue, buildTopic, MQTT_BASE_TOPIC, topicAvoids, bandTopics]
  decide

/-- With no particle sensor configured, no event of a single cycle
publishes under the particles category. -/
theorem loopStep_events_no_particles (metric : Bool) (u : Char)
    (st : LoopState) (inp : Readings) :
    ((loopStep ⟨metric, false, u⟩ st inp).events.all
        (noPublishUnder (MQTT_BASE_TOPIC ++ "/particles/"))) = true := by
  by_cases h : isDataInvalid inp.air
  · by_cases hcnt : MAX_SENSOR_FAILURES ≤ st.sensorFailureCount + 1 <;>
      simp [loopStep, h, hcnt, softResetEvents, noPublishUnder]
  · have hmsgs := publishAllSensorData_no_particle_topics
      ⟨metric, false, u⟩ rfl inp.air inp.airQuality inp.light inp.sound
      st.particleData
    simp only [List.all_eq_true] at hmsgs
    simp [loopStep, h, List.all_append, List.all_map, Function.comp,
      noPublishUnder, List.all_eq_true]
    intro m hm
    simpa [topicAvoids] using hmsgs m hm

/-- C8: with no particle sensor configured, no run of the acquisition loop
ever publishes to a topic under the particles category, and process start
publishes neither of the two particle discovery configs (nor any discovery
config whose state topic is under the particles category); the startup
availability message is not under the particles category either. -/
theorem no_particle_output_when_unconfigured (metric : Bool) (u : Char)
    (st : LoopState) (inputs : List Readings) :
    ((runLoop ⟨metric, false, u⟩ st inputs).2.all
        (noPublishUnder (MQTT_BASE_TOPIC ++ "/particles/"))) = true ∧
    ((publishAllDiscoveryConfigs ⟨metric, false, u⟩).all fun dmsg =>
        (!(dmsg.1 == buildDiscoveryTopic "duty_cycle")) &&
        (!(dmsg.1 == buildDiscoveryTopic "concentration")) &&
        (!(strStartsWith dmsg.2.state_topic
            (MQTT_BASE_TOPIC ++ "/particles/")))) = true ∧
    (strStartsWith (publishAvailability true).topic
        (MQTT_BASE_TOPIC ++ "/particles/")) = false := by
  refine ⟨?_, ?_, ?_⟩
  · induction inputs generalizing st with
    | nil => simp [runLoop]
    | cons r rs ih =>
      have hev := loopStep_events_no_particles metric u st r
      rcases hstep : loopStep ⟨metric, false, u⟩ st r with ⟨st1, evs, oc⟩
      rw [hstep] at hev
      cases oc with
      | restarted => simpa [runLoop, hstep] using hev
      | continued =>
        simp only [runLoop, hstep, List.all_append, Bool.and_eq_true]
        exact ⟨by simpa using hev, ih st1⟩
  · cases metric <;>
      simp [publishAllDiscoveryConfigs, publishMeasurementDiscovery,
        publishEnumDiscovery, buildDiscoveryTopic, DISCOVERY_PREFIX,
        DEVICE_ID, MQTT_BASE_TOPIC, AVAILABILITY_TOPIC, strStartsWith] <;>
      decide
  · decide
